import Mathlib

/-!
Verification of the WebAuthn ceremony core of `allauth/mfa/webauthn.py`.

The module orchestrates WebAuthn registration and authentication ceremonies:
per-session challenge and ceremony-state management, credential-set resolution
for a user, reverse lookup from a credential identifier to the owning record,
and the begin/complete engine built on top of the external `fido2` verification
collaborator.

Modelling conventions:
  * bytes are `List Nat` with each entry below 256;
  * the Django session is embedded as a record holding the two reserved keys
    (`mfa.webauthn.challenge`, `mfa.webauthn.state`) of the source;
  * `os.urandom` is modelled as sampling an explicit entropy stream;
  * the external collaborators (the `fido2` server operations, the account
    store, the adapter policy hook) are gathered into an explicit `Collab`
    record over which all theorems quantify;
  * Python exceptions are the inductive `PyExc`; a Python function that can
    raise is embedded with result type `Except PyExc _`;
  * base64 and base64url (the `websafe_encode` / `websafe_decode` helpers of
    `fido2.utils` and `base64.b64decode`) are implemented concretely below.
-/

/-! ## Base64 core: bytes to six-bit groups and back -/

/-- Encode a byte list into its base64 six-bit groups (big-endian bit order),
three bytes to four sextets, with the trailing partial group zero-padded. -/
def bytesToSextets : List Nat → List Nat
  | [] => []
  | [b1] => [b1 / 4, b1 % 4 * 16]
  | [b1, b2] => [b1 / 4, b1 % 4 * 16 + b2 / 16, b2 % 16 * 4]
  | b1 :: b2 :: b3 :: rest =>
      (b1 / 4) :: (b1 % 4 * 16 + b2 / 16) :: (b2 % 16 * 4 + b3 / 64) ::
        (b3 % 64) :: bytesToSextets rest

/-- Decode a list of six-bit groups back into bytes, four sextets to three
bytes, dropping the zero padding of a trailing partial group. -/
def sextetsToBytes : List Nat → List Nat
  | [] => []
  | [_] => []
  | [s1, s2] => [s1 * 4 + s2 / 16]
  | [s1, s2, s3] => [s1 * 4 + s2 / 16, s2 % 16 * 16 + s3 / 4]
  | s1 :: s2 :: s3 :: s4 :: rest =>
      (s1 * 4 + s2 / 16) :: (s2 % 16 * 16 + s3 / 4) :: (s3 % 4 * 64 + s4) ::
        sextetsToBytes rest

theorem sextetsToBytes_bytesToSextets :
    ∀ bs : List Nat, (∀ b ∈ bs, b < 256) →
      sextetsToBytes (bytesToSextets bs) = bs
  | [], _ => rfl
  | [b1], h => by
      have h1 : b1 < 256 := h b1 (by simp)
      simp only [bytesToSextets, sextetsToBytes, List.cons.injEq, and_true]
      omega
  | [b1, b2], h => by
      have h1 : b1 < 256 := h b1 (by simp)
      have h2 : b2 < 256 := h b2 (by simp)
      simp only [bytesToSextets, sextetsToBytes, List.cons.injEq, and_true]
      constructor <;> omega
  | b1 :: b2 :: b3 :: rest, h => by
      have h1 : b1 < 256 := h b1 (by simp)
      have h2 : b2 < 256 := h b2 (by simp)
      have h3 : b3 < 256 := h b3 (by simp)
      have ih := sextetsToBytes_bytesToSextets rest
        (fun b hb => h b (by simp [hb]))
      simp only [bytesToSextets, sextetsToBytes, List.cons.injEq]
      refine ⟨by omega, by omega, by omega, ih⟩

theorem bytesToSextets_lt :
    ∀ bs : List Nat, (∀ b ∈ bs, b < 256) →
      ∀ x ∈ bytesToSextets bs, x < 64
  | [], _ => by simp [bytesToSextets]
  | [b1], h => by
      have h1 : b1 < 256 := h b1 (by simp)
      simp only [bytesToSextets, List.mem_cons, List.not_mem_nil, or_false]
      rintro x (rfl | rfl) <;> omega
  | [b1, b2], h => by
      have h1 : b1 < 256 := h b1 (by simp)
      have h2 : b2 < 256 := h b2 (by simp)
      simp only [bytesToSextets, List.mem_cons, List.not_mem_nil, or_false]
      rintro x (rfl | rfl | rfl) <;> omega
  | b1 :: b2 :: b3 :: rest, h => by
      have h1 : b1 < 256 := h b1 (by simp)
      have h2 : b2 < 256 := h b2 (by simp)
      have h3 : b3 < 256 := h b3 (by simp)
      have ih := bytesToSextets_lt rest (fun b hb => h b (by simp [hb]))
      simp only [bytesToSextets, List.mem_cons]
      rintro x (rfl | rfl | rfl | rfl | hx)
      · omega
      · omega
      · omega
      · omega
      · exact ih x hx

/-! ## Base64 alphabets -/

/-- The base64url alphabet used by `websafe_encode` in `fido2.utils`. -/
def B64URL_ALPHABET : List Char :=
  "ABCDEFGHIJKLMNOPQRSTUVWXYZabcdefghijklmnopqrstuvwxyz0123456789-_".toList

/-- The standard base64 alphabet used by `base64.b64decode`. -/
def B64_ALPHABET : List Char :=
  "ABCDEFGHIJKLMNOPQRSTUVWXYZabcdefghijklmnopqrstuvwxyz0123456789+/".toList

/-- Map a six-bit group to its base64url character. -/
def urlSextetToChar (n : Nat) : Char := B64URL_ALPHABET.getD n 'A'

/-- Map a base64url character back to its six-bit group; characters outside
the alphabet (none are produced by encoding) yield `none`. -/
def urlCharToSextet (c : Char) : Option Nat := B64URL_ALPHABET.findIdx? (· == c)

/-- Map a standard base64 character back to its six-bit group; `=` padding and
foreign characters yield `none` and are skipped. -/
def b64CharToSextet (c : Char) : Option Nat := B64_ALPHABET.findIdx? (· == c)

theorem urlCharToSextet_urlSextetToChar :
    ∀ n : Fin 64, urlCharToSextet (urlSextetToChar n.val) = some n.val := by
  decide

/-- Model of `fido2.utils.websafe_encode`: base64url without padding. -/
def websafe_encode (bs : List Nat) : String :=
  String.mk ((bytesToSextets bs).map urlSextetToChar)

/-- Model of `fido2.utils.websafe_decode`: base64url text back to bytes. -/
def websafe_decode (s : String) : List Nat :=
  sextetsToBytes (s.toList.filterMap urlCharToSextet)

/-- Model of `base64.b64decode` on the standard alphabet. -/
def base64_b64decode (s : String) : List Nat :=
  sextetsToBytes (s.toList.filterMap b64CharToSextet)

theorem filterMap_id_of_some {α : Type} (f : α → Option α) :
    ∀ l : List α, (∀ x ∈ l, f x = some x) → l.filterMap f = l
  | [], _ => rfl
  | x :: xs, h => by
      have hx := h x (by simp)
      have ih := filterMap_id_of_some f xs (fun y hy => h y (by simp [hy]))
      simp [List.filterMap_cons, hx, ih]

theorem websafe_decode_encode (bs : List Nat) (h : ∀ b ∈ bs, b < 256) :
    websafe_decode (websafe_encode bs) = bs := by
  have hlt := bytesToSextets_lt bs h
  unfold websafe_decode websafe_encode
  have htl : (String.mk ((bytesToSextets bs).map urlSextetToChar)).toList
      = (bytesToSextets bs).map urlSextetToChar := rfl
  rw [htl, List.filterMap_map]
  have : (bytesToSextets bs).filterMap (fun n => urlCharToSextet (urlSextetToChar n))
      = bytesToSextets bs := by
    refine filterMap_id_of_some _ _ (fun x hx => ?_)
    exact urlCharToSextet_urlSextetToChar ⟨x, hlt x hx⟩
  rw [Function.comp_def, this]
  exact sextetsToBytes_bytesToSextets bs h

/-! ## Python exceptions and the session -/

/-- Python exception kinds relevant to the module. A function that can raise
is embedded with result type `Except PyExc _`; `validationError code` is the
exception built by `get_adapter().validation_error(code)`. -/
inductive PyExc
  | typeError
  | valueError
  | keyError
  | attributeError
  | validationError (code : String)
  | otherError (msg : String)
  deriving DecidableEq, Repr

/-- The Django session, embedded as the two reserved keys the module uses:
`CHALLENGE_SESSION_KEY = "mfa.webauthn.challenge"` holds the base64url text of
the pending challenge, `STATE_SESSION_KEY = "mfa.webauthn.state"` the opaque
ceremony state. A `none` field is an absent key. -/
structure Session where
  challenge : Option String := none
  state : Option Nat := none
  deriving DecidableEq, Repr

/-! ## Data model: collaborator objects and durable records -/

/-- The attested credential data of one registered authenticator, as parsed
by the collaborator; only its `credential_id` is inspected by this module. -/
structure AttestedCredentialData where
  credential_id : List Nat
  deriving DecidableEq, Repr

/-- The collaborator view `fido2.webauthn.AuthenticatorData` constructed from
raw bytes: it keeps the bytes and exposes an optional parsed
`credential_data` component. -/
structure AuthenticatorData where
  raw : List Nat
  credential_data : Option AttestedCredentialData
  deriving DecidableEq, Repr

/-- The `Authenticator.Type` discriminator of `allauth.mfa.models`; this
module only creates and queries `webauthn` records, the other members exist
so that filtering by type is observable. -/
inductive AuthenticatorType
  | webauthn
  | totp
  | recovery_codes
  deriving DecidableEq, Repr

/-- The JSON `data` attribute blob stored on a webauthn `Authenticator` row:
`{name, authenticator_data, passwordless}` with `authenticator_data` a
standard-base64 string. -/
structure AuthWrappedData where
  name : String
  authenticator_data : String
  passwordless : Bool
  deriving DecidableEq, Repr

/-- A durable `Authenticator` record: owning user (by primary key), type
discriminator, attributes blob. The database is a `List Authenticator` in
storage order. -/
structure Authenticator where
  user : Nat
  type : AuthenticatorType
  data : AuthWrappedData
  deriving DecidableEq, Repr

/-- The verification result of `server.authenticate_complete`; this module
reads only its `credential_id`. -/
structure Binding where
  credential_id : List Nat
  deriving DecidableEq, Repr

/-- A client-submitted raw response dict. The module itself reads only
`response.get("response", \x7b\x7d).get("userHandle")`, collapsed here into the
optional `userHandle` field; everything else is opaque `payload` handed to the
collaborator. -/
structure RawResponse where
  userHandle : Option String := none
  payload : Nat := 0
  deriving DecidableEq, Repr

/-- The `UserVerificationRequirement` enum of `fido2.webauthn`. -/
inductive UserVerificationRequirement
  | discouraged
  | preferred
  | required
  deriving DecidableEq, Repr

/-- A numeric code for a user-verification requirement, used by concrete
probe collaborators in theorems. -/
def UserVerificationRequirement.code : UserVerificationRequirement → Nat
  | .discouraged => 0
  | .preferred => 1
  | .required => 2

/-- The external collaborators, gathered into one record over which all
theorems quantify: the four `Fido2Server` ceremony operations, the
collaborator parser extracting attested credential data from raw
authenticator-data bytes, the `from_dict` response parsers, the account
store (`url_str_to_user_pk`, the utf-8 byte decoder, the set of existing
user primary keys), and the adapter hook building the relying-party user
entity. Opaque collaborator outputs (options dicts, ceremony states,
parsed responses, user entities) are embedded as `Nat` tokens. -/
structure Collab where
  registerBegin : Nat → List AttestedCredentialData → UserVerificationRequirement → List Nat → Nat × Nat
  registerComplete : Option Nat → RawResponse → Except PyExc AuthenticatorData
  authenticateBegin : List AttestedCredentialData → UserVerificationRequirement → List Nat → Nat × Nat
  authenticateComplete : Option Nat → List AttestedCredentialData → RawResponse → Except PyExc Binding
  parseCredentialData : List Nat → Option AttestedCredentialData
  regFromDict : RawResponse → Except PyExc Nat
  authFromDict : RawResponse → Except PyExc Nat
  url_str_to_user_pk : String → Except PyExc Nat
  utf8Decode : List Nat → Except PyExc String
  users : List Nat
  userEntity : Nat → Nat

/-! ## Challenge manager and ceremony state store -/

/-- Model of `os.urandom(n)`: read `n` bytes from an explicit entropy
stream. -/
def os_urandom (n : Nat) (entropy : Nat → Nat) : List Nat :=
  (List.range n).map (fun i => entropy i % 256)

/-- Source `generate_challenge`: return the session challenge decoded if one
is stored, otherwise mint 32 random bytes, store them base64url-encoded and
return them. The updated session is returned alongside. -/
def generate_challenge (entropy : Nat → Nat) (s : Session) : List Nat × Session :=
  match s.challenge with
  | some c => (websafe_decode c, s)
  | none =>
      let challenge := os_urandom 32 entropy
      (challenge, { s with challenge := some (websafe_encode challenge) })

/-- Source `consume_challenge`: pop the challenge key (no-op when absent). -/
def consume_challenge (s : Session) : Session :=
  { s with challenge := none }

/-- Source `get_state`. -/
def get_state (s : Session) : Option Nat :=
  s.state

/-- Source `set_state`: overwrite any prior state. -/
def set_state (s : Session) (st : Nat) : Session :=
  { s with state := some st }

/-- Source `clear_state`: pop the state key (no-op when absent). -/
def clear_state (s : Session) : Session :=
  { s with state := none }

/-! ## Authenticator record adapter -/

/-- The `WebAuthn` wrapper class around an `Authenticator` instance. -/
structure WebAuthn where
  inst : Authenticator
  deriving DecidableEq, Repr

/-- The `wrap()` call of `allauth.mfa.models.Authenticator` specialised to
webauthn records. -/
def Authenticator.wrap (a : Authenticator) : WebAuthn :=
  ⟨a⟩

/-- Source `WebAuthn.add`: build an `Authenticator` of type webauthn with the
attributes blob `{name, authenticator_data, passwordless}` and save it; the
save is embedded as appending to the database list. -/
def WebAuthn.add (db : List Authenticator) (user : Nat) (name : String)
    (authenticator_data : String) (passwordless : Bool) :
    WebAuthn × List Authenticator :=
  let inst : Authenticator :=
    { user := user
      type := AuthenticatorType.webauthn
      data :=
        { name := name
          authenticator_data := authenticator_data
          passwordless := passwordless } }
  (⟨inst⟩, db ++ [inst])

/-- Source `WebAuthn.name` property. -/
def WebAuthn.wrapped_name (w : WebAuthn) : String :=
  w.inst.data.name

/-- Source `WebAuthn.authenticator_data` property:
`AuthenticatorData(base64.b64decode(self.instance.data["authenticator_data"]))` —
the stored blob is base64-decoded and handed to the collaborator constructor,
which keeps the bytes and parses the optional credential data. -/
def WebAuthn.authenticator_data (w : WebAuthn) (X : Collab) : AuthenticatorData :=
  let raw := base64_b64decode w.inst.data.authenticator_data
  { raw := raw, credential_data := X.parseCredentialData raw }

/-- Source `WebAuthn.is_passwordless` property: the stored client-asserted
flag, verbatim. -/
def WebAuthn.is_passwordless (w : WebAuthn) : Bool :=
  w.inst.data.passwordless

/-! ## Credential repository -/

/-- The loop body of `get_credentials`: walk the filtered records, keep each
decoded `credential_data` that is present (truthy), skip records whose
decoded data lacks it. -/
def credentials_loop (X : Collab) : List Authenticator → List AttestedCredentialData
  | [] => []
  | a :: rest =>
      match (a.wrap.authenticator_data X).credential_data with
      | some cd => cd :: credentials_loop X rest
      | none => credentials_loop X rest

/-- Source `get_credentials`: all webauthn records of the user, in storage
order, mapped to their credential data, skipping absent ones. -/
def get_credentials (X : Collab) (db : List Authenticator) (user : Nat) :
    List AttestedCredentialData :=
  credentials_loop X
    (db.filter (fun a =>
      decide (a.user = user) && decide (a.type = AuthenticatorType.webauthn)))

/-- The loop body of `get_authenticator_by_credential_id`: first record whose
decoded credential identifier equals the argument. The source dereferences
`credential_data.credential_id` without a presence check, so a record whose
decoded data lacks credential data raises `AttributeError`. -/
def credential_scan (X : Collab) (credential_id : List Nat) :
    List Authenticator → Except PyExc (Option Authenticator)
  | [] => .ok none
  | a :: rest =>
      match (a.wrap.authenticator_data X).credential_data with
      | none => .error .attributeError
      | some cd =>
          if credential_id = cd.credential_id then .ok (some a)
          else credential_scan X credential_id rest

/-- Source `get_authenticator_by_credential_id`: scan every record of type
webauthn, regardless of the (unused) `user` argument, for the first whose
decoded credential identifier equals `credential_id`; `none` when no record
matches. -/
def get_authenticator_by_credential_id (X : Collab) (db : List Authenticator)
    (user : Nat) (credential_id : List Nat) : Except PyExc (Option Authenticator) :=
  credential_scan X credential_id
    (db.filter (fun a => decide (a.type = AuthenticatorType.webauthn)))

/-! ## Response parsing -/

/-- Source `parse_registration_response`:
`RegistrationResponse.from_dict(response)` with `TypeError` mapped to the
generic validation error; any other exception propagates. -/
def parse_registration_response (X : Collab) (response : RawResponse) :
    Except PyExc Nat :=
  match X.regFromDict response with
  | .ok v => .ok v
  | .error .typeError => .error (.validationError "incorrect_code")
  | .error e => .error e

/-- Source `parse_authentication_response`:
`AuthenticationResponse.from_dict(response)` with `TypeError` mapped to the
generic validation error; any other exception propagates. -/
def parse_authentication_response (X : Collab) (response : RawResponse) :
    Except PyExc Nat :=
  match X.authFromDict response with
  | .ok v => .ok v
  | .error .typeError => .error (.validationError "incorrect_code")
  | .error e => .error e

/-! ## Relying-party ceremony engine -/

/-- Source `build_user_payload`: the adapter hook
`get_public_key_credential_user_entity` fed into the
`PublicKeyCredentialUserEntity` constructor, embedded as the collaborator map
from the user primary key to an opaque entity token. -/
def build_user_payload (X : Collab) (user : Nat) : Nat :=
  X.userEntity user

/-- Source `begin_registration`: fetch the user credential set, obtain a
challenge (possibly minting one into the session), call
`server.register_begin` with user-verification `DISCOURAGED`, persist the
returned ceremony state, and return the registration options. -/
def begin_registration (X : Collab) (entropy : Nat → Nat)
    (db : List Authenticator) (s : Session) (user : Nat) : Nat × Session :=
  let credentials := get_credentials X db user
  let pair := generate_challenge entropy s
  let rb := X.registerBegin (build_user_payload X user) credentials
    UserVerificationRequirement.discouraged pair.1
  (rb.1, set_state pair.2 rb.2)

/-- Source `complete_registration`: load the stored ceremony state (possibly
absent — the source has a FIXME and passes it on as is), call
`server.register_complete`; on success consume the challenge and clear the
state and return the binding; an exception from the collaborator propagates
with the session untouched. -/
def complete_registration (X : Collab) (s : Session) (credential : RawResponse) :
    Except PyExc AuthenticatorData × Session :=
  let state := get_state s
  match X.registerComplete state credential with
  | .error e => (.error e, s)
  | .ok binding => (.ok binding, clear_state (consume_challenge s))

/-- Source `begin_authentication`: the credential set is the known user
credentials, or empty when no user is given (passwordless flow); call
`server.authenticate_begin` with user-verification `PREFERRED`, persist the
state, return the request options. -/
def begin_authentication (X : Collab) (entropy : Nat → Nat)
    (db : List Authenticator) (s : Session) (user : Option Nat) : Nat × Session :=
  let credentials := match user with
    | some u => get_credentials X db u
    | none => []
  let pair := generate_challenge entropy s
  let ab := X.authenticateBegin credentials
    UserVerificationRequirement.preferred pair.1
  (ab.1, set_state pair.2 ab.2)

/-- The try-block body of `extract_user_from_response`: read the optional
`userHandle` (absent gives `None`, so `websafe_decode(None)` raises
`TypeError`), websafe-decode it, utf-8 decode the bytes and convert with
`url_str_to_user_pk`. -/
def user_handle_to_pk (X : Collab) (response : RawResponse) : Except PyExc Nat :=
  match response.userHandle with
  | none => .error .typeError
  | some h =>
      match X.utf8Decode (websafe_decode h) with
      | .error e => .error e
      | .ok str => X.url_str_to_user_pk str

/-- Source `extract_user_from_response`: `ValueError`, `TypeError` and
`KeyError` from the handle pipeline become the generic validation error;
then the account store is queried by primary key and a missing account also
becomes the generic validation error. -/
def extract_user_from_response (X : Collab) (response : RawResponse) :
    Except PyExc Nat :=
  match user_handle_to_pk X response with
  | .error .valueError => .error (.validationError "incorrect_code")
  | .error .typeError => .error (.validationError "incorrect_code")
  | .error .keyError => .error (.validationError "incorrect_code")
  | .error e => .error e
  | .ok pk =>
      if X.users.contains pk then .ok pk
      else .error (.validationError "incorrect_code")

/-- The `if user is None` head of `complete_authentication`. -/
def resolve_user (X : Collab) (user : Option Nat) (response : RawResponse) :
    Except PyExc Nat :=
  match user with
  | some u => .ok u
  | none => extract_user_from_response X response

/-- Source `complete_authentication`: resolve the user (from the response if
not given), fetch the user credential set, load the stored state, call
`server.authenticate_complete` mapping `ValueError` to the generic validation
error (anything else propagates); on success consume the challenge, clear the
state, and resolve the matched record by credential identifier. -/
def complete_authentication (X : Collab) (db : List Authenticator) (s : Session)
    (user : Option Nat) (response : RawResponse) :
    Except PyExc (Option Authenticator) × Session :=
  match resolve_user X user response with
  | .error e => (.error e, s)
  | .ok u =>
      let credentials := get_credentials X db u
      let state := get_state s
      match X.authenticateComplete state credentials response with
      | .error .valueError => (.error (.validationError "incorrect_code"), s)
      | .error e => (.error e, s)
      | .ok binding =>
          let s2 := clear_state (consume_challenge s)
          (get_authenticator_by_credential_id X db u binding.credential_id, s2)

/-! ## Helper lemmas -/

theorem os_urandom_length (n : Nat) (entropy : Nat → Nat) :
    (os_urandom n entropy).length = n := by
  simp [os_urandom]

theorem os_urandom_lt (n : Nat) (entropy : Nat → Nat) :
    ∀ b ∈ os_urandom n entropy, b < 256 := by
  intro b hb
  simp only [os_urandom, List.mem_map] at hb
  obtain ⟨i, _, rfl⟩ := hb
  exact Nat.mod_lt _ (by norm_num)

/-! ## Concrete fixtures used by witness theorems -/

/-- A simple concrete attested credential with identifier `[1, 2, 3]`. -/
def acdA : AttestedCredentialData := ⟨[1, 2, 3]⟩

/-- A baseline concrete collaborator: every operation succeeds, attested
credential data is parsed from any nonempty byte list as the bytes
themselves. -/
def collab0 : Collab :=
  { registerBegin := fun ue creds uv ch => (ue + creds.length + uv.code + ch.length, 100)
    registerComplete := fun _ _ => .ok { raw := [7], credential_data := some acdA }
    authenticateBegin := fun creds uv ch => (creds.length + uv.code + ch.length, 200)
    authenticateComplete := fun _ _ _ => .ok ⟨[1, 2, 3]⟩
    parseCredentialData := fun raw => if raw = [] then none else some ⟨raw⟩
    regFromDict := fun r => .ok r.payload
    authFromDict := fun r => .ok r.payload
    url_str_to_user_pk := fun str => .ok str.length
    utf8Decode := fun _ => .ok "1"
    users := [1, 2]
    userEntity := fun u => u }

/-- A session holding both a pending challenge and a pending ceremony
state. -/
def busySession : Session := { challenge := some "AQID", state := some 5 }

/-- A collaborator whose authentication verification rejects every response
with `ValueError`, as `fido2` does for an unknown credential or a bad
assertion. -/
def collabAuthFail : Collab :=
  { collab0 with authenticateComplete := fun _ _ _ => .error .valueError }

/-- A collaborator whose registration verification rejects every response. -/
def collabRegFail : Collab :=
  { collab0 with registerComplete := fun _ _ => .error .valueError }

/-- A raw response carrying no user handle. -/
def rawResp0 : RawResponse := { userHandle := none, payload := 0 }

/-! ## Claim theorems -/

/-- C3: `generate_challenge` is idempotent per session. A stored challenge is
decoded and returned with the session unchanged and nothing minted; on a
first call it mints exactly the 32 bytes read from the entropy stream (so 32
random bytes), stores them base64url-encoded, and returns them raw; and a
second call — under any entropy stream — returns the same challenge bytes as
the first, so two begin calls without an intervening completion share one
challenge. -/
theorem generate_challenge_idempotent (entropy entropy2 : Nat → Nat)
    (s : Session) (c : String) :
    (s.challenge = some c → generate_challenge entropy s = (websafe_decode c, s))
    ∧ (s.challenge = none →
        (generate_challenge entropy s).1 = os_urandom 32 entropy
        ∧ (generate_challenge entropy s).1.length = 32
        ∧ (generate_challenge entropy s).2
            = { s with challenge := some (websafe_encode (os_urandom 32 entropy)) })
    ∧ (generate_challenge entropy2 (generate_challenge entropy s).2).1
        = (generate_challenge entropy s).1 := by
  cases hs : s.challenge with
  | some c0 =>
      refine ⟨fun hc => ?_, fun hc => by simp [hs] at hc, ?_⟩
      · injection hc with h
        subst h
        simp [generate_challenge, hs]
      · simp [generate_challenge, hs]
  | none =>
      refine ⟨fun hc => by simp [hs] at hc, fun _ => ?_, ?_⟩
      · refine ⟨by simp [generate_challenge, hs], ?_, by simp [generate_challenge, hs]⟩
        simp [generate_challenge, hs, os_urandom_length]
      · simp only [generate_challenge, hs]
        exact websafe_decode_encode _ (os_urandom_lt 32 entropy)

/-- Witness for C3 at a concrete session and entropy stream. -/
theorem generate_challenge_idempotent_witness :
    (({ challenge := some "AQID", state := none } : Session).challenge = some "AQID")
    ∧ generate_challenge (fun i => i) { challenge := some "AQID", state := none }
        = (websafe_decode "AQID", { challenge := some "AQID", state := none }) :=
  ⟨rfl,
    (generate_challenge_idempotent (fun i => i) (fun i => i)
      { challenge := some "AQID", state := none } "AQID").1 rfl⟩

/-- C1 is refuted by the code: when the collaborator verification rejects the
response, `complete_authentication` raises the generic validation error and
`complete_registration` propagates the exception, and in both cases the
session still holds the challenge key and the ceremony-state key — the
failure path does not clear them, so the stored state and challenge remain
available to a subsequent attempt in the same session. -/
theorem failure_path_retains_challenge_and_state :
    (complete_authentication collabAuthFail [] busySession (some 1) rawResp0).1
      = .error (.validationError "incorrect_code")
    ∧ (complete_authentication collabAuthFail [] busySession (some 1) rawResp0).2
      = busySession
    ∧ (complete_registration collabRegFail busySession rawResp0).1
      = .error .valueError
    ∧ (complete_registration collabRegFail busySession rawResp0).2
      = busySession
    ∧ busySession.challenge = some "AQID"
    ∧ busySession.state = some 5 := by
  refine ⟨rfl, rfl, rfl, rfl, rfl, rfl⟩

/-- C2: after a successful `complete_registration` or
`complete_authentication` call, both the challenge key and the ceremony-state
key are absent from the session. -/
theorem success_clears_challenge_and_state (X : Collab) (db : List Authenticator)
    (s : Session) (user : Option Nat) (r : RawResponse) (b : AuthenticatorData)
    (t : Option Authenticator) :
    ((complete_registration X s r).1 = .ok b →
      (complete_registration X s r).2.challenge = none
      ∧ (complete_registration X s r).2.state = none)
    ∧ ((complete_authentication X db s user r).1 = .ok t →
      (complete_authentication X db s user r).2.challenge = none
      ∧ (complete_authentication X db s user r).2.state = none) := by
  constructor
  · intro hok
    cases hx : X.registerComplete (get_state s) r with
    | error e => simp [complete_registration, hx] at hok
    | ok b2 => simp [complete_registration, hx, clear_state, consume_challenge]
  · intro hok
    cases hu : resolve_user X user r with
    | error e => simp [complete_authentication, hu] at hok
    | ok u =>
        cases hx : X.authenticateComplete (get_state s) (get_credentials X db u) r with
        | error e => cases e <;> simp [complete_authentication, hu, hx] at hok
        | ok binding =>
            simp [complete_authentication, hu, hx, clear_state, consume_challenge]

/-- Witness for C2: with the baseline collaborator both completions succeed
from a busy session and leave both keys absent. -/
theorem success_clears_challenge_and_state_witness :
    ((complete_registration collab0 busySession rawResp0).1
        = .ok { raw := [7], credential_data := some acdA }
      ∧ (complete_authentication collab0 [] busySession (some 1) rawResp0).1
        = .ok none)
    ∧ ((complete_registration collab0 busySession rawResp0).2.challenge = none
      ∧ (complete_registration collab0 busySession rawResp0).2.state = none)
    ∧ ((complete_authentication collab0 [] busySession (some 1) rawResp0).2.challenge = none
      ∧ (complete_authentication collab0 [] busySession (some 1) rawResp0).2.state = none) :=
  ⟨⟨rfl, rfl⟩,
    (success_clears_challenge_and_state collab0 [] busySession (some 1) rawResp0
      { raw := [7], credential_data := some acdA } none).1 rfl,
    (success_clears_challenge_and_state collab0 [] busySession (some 1) rawResp0
      { raw := [7], credential_data := some acdA } none).2 rfl⟩

/-- The decoded credential identifier of a stored record, when its decoded
authenticator data carries credential data. -/
def credentialIdOf (X : Collab) (a : Authenticator) : Option (List Nat) :=
  ((a.wrap.authenticator_data X).credential_data).map
    (fun cd => cd.credential_id)

theorem credential_scan_find (X : Collab) (cid : List Nat) :
    ∀ l : List Authenticator,
      (∀ a ∈ l, (a.wrap.authenticator_data X).credential_data ≠ none) →
      credential_scan X cid l
        = .ok (l.find? (fun a => decide (credentialIdOf X a = some cid)))
  | [], _ => rfl
  | a :: rest, h => by
      have ha := h a (by simp)
      have ih := credential_scan_find X cid rest (fun x hx => h x (by simp [hx]))
      cases hcd : (a.wrap.authenticator_data X).credential_data with
      | none => exact absurd hcd ha
      | some cd =>
          have hid : credentialIdOf X a = some cd.credential_id := by
            simp [credentialIdOf, hcd]
          by_cases heq : cid = cd.credential_id
          · simp [credential_scan, hcd, heq, List.find?_cons, hid]
          · have hpa : decide (credentialIdOf X a = some cid) = false := by
              simp only [hid, Option.some.injEq, decide_eq_false_iff_not]
              exact fun hx => heq hx.symm
            simp [credential_scan, hcd, heq, List.find?_cons, hpa, ih]

/-- C4: the reverse lookup scans all webauthn records system-wide: its result
does not depend on the `user` argument, and (whenever every webauthn record
decodes to credential data, the only case in which the source dereference
does not raise) it returns the first record in storage order whose decoded
credential identifier equals the argument exactly, or `none` when no record
matches. -/
theorem get_authenticator_by_credential_id_spec (X : Collab)
    (db : List Authenticator) (u u2 : Nat) (cid : List Nat)
    (hwf : ∀ a ∈ db, a.type = AuthenticatorType.webauthn →
      (a.wrap.authenticator_data X).credential_data ≠ none) :
    get_authenticator_by_credential_id X db u cid
      = get_authenticator_by_credential_id X db u2 cid
    ∧ get_authenticator_by_credential_id X db u cid
      = .ok ((db.filter (fun a => decide (a.type = AuthenticatorType.webauthn))).find?
          (fun a => decide (credentialIdOf X a = some cid)))
    ∧ ((∀ a ∈ db, credentialIdOf X a ≠ some cid) →
        get_authenticator_by_credential_id X db u cid = .ok none) := by
  have hchar : get_authenticator_by_credential_id X db u cid
      = .ok ((db.filter (fun a => decide (a.type = AuthenticatorType.webauthn))).find?
          (fun a => decide (credentialIdOf X a = some cid))) := by
    unfold get_authenticator_by_credential_id
    refine credential_scan_find X cid _ (fun a ha => ?_)
    rw [List.mem_filter] at ha
    exact hwf a ha.1 (by simpa using ha.2)
  refine ⟨rfl, hchar, fun habs => ?_⟩
  rw [hchar]
  congr 1
  rw [List.find?_eq_none]
  intro a ha
  rw [List.mem_filter] at ha
  simpa using habs a ha.1

/-- Concrete record with credential identifier `[1, 2, 3]` (blob `AQID`). -/
def authRecA : Authenticator :=
  { user := 1
    type := AuthenticatorType.webauthn
    data := { name := "keyA", authenticator_data := "AQID", passwordless := false } }

/-- Concrete record with credential identifier `[4, 5]` (blob `BAU=`). -/
def authRecB : Authenticator :=
  { user := 1
    type := AuthenticatorType.webauthn
    data := { name := "keyB", authenticator_data := "BAU=", passwordless := true } }

/-- Concrete record with credential identifier `[6]` (blob `Bg==`). -/
def authRecC : Authenticator :=
  { user := 2
    type := AuthenticatorType.webauthn
    data := { name := "keyC", authenticator_data := "Bg==", passwordless := false } }

/-- A three-record database. -/
def db3 : List Authenticator := [authRecA, authRecB, authRecC]

/-- Witness for C4 on the three-record database. -/
theorem get_authenticator_by_credential_id_spec_witness :
    (∀ a ∈ db3, a.type = AuthenticatorType.webauthn →
      (a.wrap.authenticator_data collab0).credential_data ≠ none)
    ∧ (get_authenticator_by_credential_id collab0 db3 1 [4, 5]
        = get_authenticator_by_credential_id collab0 db3 9 [4, 5]
      ∧ get_authenticator_by_credential_id collab0 db3 1 [4, 5]
        = .ok ((db3.filter (fun a => decide (a.type = AuthenticatorType.webauthn))).find?
            (fun a => decide (credentialIdOf collab0 a = some [4, 5])))
      ∧ ((∀ a ∈ db3, credentialIdOf collab0 a ≠ some [4, 5]) →
          get_authenticator_by_credential_id collab0 db3 1 [4, 5] = .ok none)) :=
  ⟨by decide,
    get_authenticator_by_credential_id_spec collab0 db3 1 9 [4, 5] (by decide)⟩

/-- C5: when the collaborator verification succeeds but no stored webauthn
record carries the verified credential identifier, `complete_authentication`
yields the absent result — no authenticator record for its caller to accept,
the hard-failure signal — rather than fabricating a successful record; the
challenge and state are consumed on the way. -/
theorem unknown_record_is_not_success (X : Collab) (db : List Authenticator)
    (s : Session) (u : Nat) (r : RawResponse) (binding : Binding)
    (hver : X.authenticateComplete (get_state s) (get_credentials X db u) r
      = .ok binding)
    (habs : get_authenticator_by_credential_id X db u binding.credential_id
      = .ok none) :
    complete_authentication X db s (some u) r
      = (.ok none, { challenge := none, state := none }) := by
  simp [complete_authentication, resolve_user, hver, habs, clear_state,
    consume_challenge]

/-- A collaborator asserting a credential identifier that no stored record
carries. -/
def collabMissA : Collab :=
  { collab0 with authenticateComplete := fun _ _ _ => .ok ⟨[9, 9]⟩ }

/-- Witness for C5: verified identifier `[9, 9]` matches none of the three
stored records. -/
theorem unknown_record_is_not_success_witness :
    (collabMissA.authenticateComplete (get_state busySession)
        (get_credentials collabMissA db3 1) rawResp0 = .ok ⟨[9, 9]⟩
      ∧ get_authenticator_by_credential_id collabMissA db3 1 [9, 9] = .ok none)
    ∧ complete_authentication collabMissA db3 busySession (some 1) rawResp0
        = (.ok none, { challenge := none, state := none }) :=
  ⟨⟨rfl, rfl⟩,
    unknown_record_is_not_success collabMissA db3 busySession 1 rawResp0
      ⟨[9, 9]⟩ rfl rfl⟩

/-- C6: with no user given, a response whose user handle cannot be decoded
(an absent handle raises `TypeError` in the pipeline; a bad handle raises
`ValueError`, `TypeError` or `KeyError`) or whose handle decodes to the
primary key of no account makes `complete_authentication` fail with the
single generic validation error, leaves the session unchanged, and never
proceeds to verification: the outcome is identical for every possible
`authenticateComplete` collaborator, so no unhandled fault can arise from
this path. -/
theorem unresolvable_user_generic_failure (X : Collab) (db : List Authenticator)
    (s : Session) (r : RawResponse)
    (h : (∃ e, user_handle_to_pk X r = .error e
            ∧ (e = PyExc.typeError ∨ e = PyExc.valueError ∨ e = PyExc.keyError))
        ∨ (∃ pk, user_handle_to_pk X r = .ok pk ∧ X.users.contains pk = false)) :
    (r.userHandle = none → user_handle_to_pk X r = .error PyExc.typeError)
    ∧ extract_user_from_response X r = .error (.validationError "incorrect_code")
    ∧ ∀ ac, complete_authentication { X with authenticateComplete := ac } db s none r
        = (.error (.validationError "incorrect_code"), s) := by
  have hextract : extract_user_from_response X r
      = .error (.validationError "incorrect_code") := by
    rcases h with ⟨e, he, hk⟩ | ⟨pk, hpk, hnot⟩
    · rcases hk with rfl | rfl | rfl <;> simp [extract_user_from_response, he]
    · have hmem : pk ∉ X.users := by simpa using hnot
      simp [extract_user_from_response, hpk, hmem]
  refine ⟨fun hn => by simp [user_handle_to_pk, hn], hextract, fun ac => ?_⟩
  have hres : resolve_user { X with authenticateComplete := ac } none r
      = .error (.validationError "incorrect_code") := hextract
  simp [complete_authentication, hres]

/-- A collaborator whose primary-key conversion yields a key of no existing
account. -/
def collabNoUser : Collab :=
  { collab0 with url_str_to_user_pk := fun _ => .ok 99 }

/-- A raw response carrying a decodable user handle. -/
def rawHandle : RawResponse := { userHandle := some "AA", payload := 0 }

/-- Witness for C6: the handle decodes to primary key 99, no such account
exists, and completion fails with the generic validation error leaving the
session untouched. -/
theorem unresolvable_user_generic_failure_witness :
    (user_handle_to_pk collabNoUser rawHandle = .ok 99
      ∧ collabNoUser.users.contains 99 = false)
    ∧ extract_user_from_response collabNoUser rawHandle
        = .error (.validationError "incorrect_code")
    ∧ complete_authentication
        { collabNoUser with authenticateComplete := fun _ _ _ => .ok ⟨[1, 2, 3]⟩ }
        [] busySession none rawHandle
        = (.error (.validationError "incorrect_code"), busySession) :=
  ⟨⟨rfl, rfl⟩,
    (unresolvable_user_generic_failure collabNoUser [] busySession rawHandle
      (Or.inr ⟨99, rfl, rfl⟩)).2.1,
    (unresolvable_user_generic_failure collabNoUser [] busySession rawHandle
      (Or.inr ⟨99, rfl, rfl⟩)).2.2 (fun _ _ _ => .ok ⟨[1, 2, 3]⟩)⟩

/-- C7: a raw response the collaborator cannot parse into the structured
response object (`from_dict` raises `TypeError`, its failure mode for missing
or unexpected structured fields) makes both parse operations fail with the
generic validation error instead of letting the decode exception escape. -/
theorem parse_response_generic_failure (X : Collab) (r : RawResponse)
    (hreg : X.regFromDict r = .error PyExc.typeError)
    (hauth : X.authFromDict r = .error PyExc.typeError) :
    parse_registration_response X r = .error (.validationError "incorrect_code")
    ∧ parse_authentication_response X r = .error (.validationError "incorrect_code") := by
  constructor
  · simp [parse_registration_response, hreg]
  · simp [parse_authentication_response, hauth]

/-- A collaborator whose structured-response parsers reject everything. -/
def collabBadDict : Collab :=
  { collab0 with
      regFromDict := fun _ => .error PyExc.typeError
      authFromDict := fun _ => .error PyExc.typeError }

/-- Witness for C7. -/
theorem parse_response_generic_failure_witness :
    (collabBadDict.regFromDict rawResp0 = .error PyExc.typeError
      ∧ collabBadDict.authFromDict rawResp0 = .error PyExc.typeError)
    ∧ parse_registration_response collabBadDict rawResp0
        = .error (.validationError "incorrect_code")
    ∧ parse_authentication_response collabBadDict rawResp0
        = .error (.validationError "incorrect_code") :=
  ⟨⟨rfl, rfl⟩, parse_response_generic_failure collabBadDict rawResp0 rfl rfl⟩

theorem credentials_loop_filterMap (X : Collab) :
    ∀ l : List Authenticator,
      credentials_loop X l
        = l.filterMap (fun a => (a.wrap.authenticator_data X).credential_data)
  | [] => rfl
  | a :: rest => by
      have ih := credentials_loop_filterMap X rest
      cases hcd : (a.wrap.authenticator_data X).credential_data with
      | none => simp [credentials_loop, hcd, List.filterMap_cons, ih]
      | some cd => simp [credentials_loop, hcd, List.filterMap_cons, ih]

/-- C8: `get_credentials` returns, in storage order, the credential data of
each webauthn record of the user, skipping any record whose decoded data
lacks credential data; a user owning no records yields the empty list. -/
theorem get_credentials_spec (X : Collab) (db : List Authenticator) (u : Nat) :
    get_credentials X db u
      = (db.filter (fun a => decide (a.user = u)
          && decide (a.type = AuthenticatorType.webauthn))).filterMap
          (fun a => (a.wrap.authenticator_data X).credential_data)
    ∧ ((∀ a ∈ db, a.user ≠ u) → get_credentials X db u = []) := by
  refine ⟨credentials_loop_filterMap X _, fun hnone => ?_⟩
  unfold get_credentials
  have hfil : db.filter (fun a => decide (a.user = u)
      && decide (a.type = AuthenticatorType.webauthn)) = [] := by
    rw [List.filter_eq_nil_iff]
    intro a ha
    simp [hnone a ha]
  rw [hfil]
  rfl

/-- Witness for C8: user 7 owns none of the three records. -/
theorem get_credentials_spec_witness :
    (∀ a ∈ db3, a.user ≠ 7) ∧ get_credentials collab0 db3 7 = [] :=
  ⟨by decide, (get_credentials_spec collab0 db3 7).2 (by decide)⟩

/-- C9: record adapter round trip. `add` persists exactly one new record by
appending it in storage order; re-reading the created record yields the
passwordless flag verbatim, the stored blob is the given base64 string
unmodified, and the authenticator-data bytes seen by the collaborator are
exactly the base64 decoding of that stored string; owner and type are stored
as given. -/
theorem webauthn_add_roundtrip (X : Collab) (db : List Authenticator)
    (user : Nat) (name : String) (d : String) (p : Bool) :
    (WebAuthn.add db user name d p).2
      = db ++ [(WebAuthn.add db user name d p).1.inst]
    ∧ (WebAuthn.add db user name d p).1.is_passwordless = p
    ∧ (WebAuthn.add db user name d p).1.inst.data.authenticator_data = d
    ∧ ((WebAuthn.add db user name d p).1.inst.wrap.authenticator_data X).raw
      = base64_b64decode d
    ∧ (WebAuthn.add db user name d p).1.inst.user = user
    ∧ (WebAuthn.add db user name d p).1.inst.type = AuthenticatorType.webauthn :=
  ⟨rfl, rfl, rfl, rfl, rfl, rfl⟩

/-- A probe collaborator recording the user-verification requirement it was
called with inside the ceremony state it returns. -/
def uvProbe : Nat → List AttestedCredentialData → UserVerificationRequirement →
    List Nat → Nat × Nat :=
  fun _ _ uv _ => (0, uv.code)

/-- A probe collaborator recording the size of the credential set and the
user-verification requirement it was called with inside the ceremony state:
state `4 * n + c` encodes `n` credentials and requirement code `c`. -/
def credsProbe : List AttestedCredentialData → UserVerificationRequirement →
    List Nat → Nat × Nat :=
  fun creds uv _ => (0, 4 * creds.length + uv.code)

/-- A probe collaborator for authentication recording only the
user-verification requirement it was called with inside the ceremony
state. -/
def authUvProbe : List AttestedCredentialData → UserVerificationRequirement →
    List Nat → Nat × Nat :=
  fun _ uv _ => (0, uv.code)

theorem credentials_loop_congr (X Y : Collab)
    (hp : X.parseCredentialData = Y.parseCredentialData) :
    ∀ l : List Authenticator, credentials_loop X l = credentials_loop Y l
  | [] => rfl
  | a :: rest => by
      have ih := credentials_loop_congr X Y hp rest
      simp [credentials_loop, WebAuthn.authenticator_data, hp, ih]

theorem get_credentials_congr (X Y : Collab)
    (hp : X.parseCredentialData = Y.parseCredentialData)
    (db : List Authenticator) (u : Nat) :
    get_credentials X db u = get_credentials Y db u := by
  unfold get_credentials
  exact credentials_loop_congr X Y hp _

/-- C10: `begin_registration` invokes the collaborator only with
user-verification requirement `discouraged` — its outcome depends on nothing
but the collaborator behaviour at `discouraged`, and a probe collaborator
that stores its received requirement into the ceremony state stores the
`discouraged` code; `begin_authentication` invokes it only with `preferred`
for every user argument, known or unknown — its outcome depends only on the
collaborator behaviour at `preferred`, and the requirement probe stores the
`preferred` code whatever the user argument is; and when no user is known it
passes the empty credential set — the outcome with `none` depends only on
the collaborator behaviour at the empty set, and the credential-set probe
records zero credentials. -/
theorem begin_calls_use_fixed_parameters (X : Collab)
    (f g : Nat → List AttestedCredentialData → UserVerificationRequirement →
      List Nat → Nat × Nat)
    (f2 g2 f3 g3 : List AttestedCredentialData → UserVerificationRequirement →
      List Nat → Nat × Nat)
    (entropy : Nat → Nat) (db : List Authenticator) (s : Session) (user : Nat)
    (user2 : Option Nat)
    (h1 : ∀ ue creds ch, f ue creds UserVerificationRequirement.discouraged ch
        = g ue creds UserVerificationRequirement.discouraged ch)
    (h2 : ∀ creds ch, f2 creds UserVerificationRequirement.preferred ch
        = g2 creds UserVerificationRequirement.preferred ch)
    (h3 : ∀ ch, f3 [] UserVerificationRequirement.preferred ch
        = g3 [] UserVerificationRequirement.preferred ch) :
    begin_registration { X with registerBegin := f } entropy db s user
      = begin_registration { X with registerBegin := g } entropy db s user
    ∧ begin_authentication { X with authenticateBegin := f2 } entropy db s user2
      = begin_authentication { X with authenticateBegin := g2 } entropy db s user2
    ∧ begin_authentication { X with authenticateBegin := f3 } entropy db s none
      = begin_authentication { X with authenticateBegin := g3 } entropy db s none
    ∧ (begin_registration { X with registerBegin := uvProbe } entropy db s user).2.state
      = some UserVerificationRequirement.discouraged.code
    ∧ (begin_authentication { X with authenticateBegin := authUvProbe } entropy db s user2).2.state
      = some UserVerificationRequirement.preferred.code
    ∧ (begin_authentication { X with authenticateBegin := credsProbe } entropy db s none).2.state
      = some UserVerificationRequirement.preferred.code := by
  refine ⟨?_, ?_, ?_, ?_, ?_, ?_⟩
  · have hcred : get_credentials { X with registerBegin := f } db user
        = get_credentials { X with registerBegin := g } db user :=
      get_credentials_congr { X with registerBegin := f }
        { X with registerBegin := g } rfl db user
    simp only [begin_registration, build_user_payload]
    rw [hcred, h1]
  · cases user2 with
    | none =>
        simp only [begin_authentication]
        rw [h2]
    | some u =>
        have hcred : get_credentials { X with authenticateBegin := f2 } db u
            = get_credentials { X with authenticateBegin := g2 } db u :=
          get_credentials_congr { X with authenticateBegin := f2 }
            { X with authenticateBegin := g2 } rfl db u
        simp only [begin_authentication]
        rw [hcred, h2]
  · simp only [begin_authentication]
    rw [h3]
  · simp [begin_registration, set_state, uvProbe]
  · cases user2 with
    | none => simp [begin_authentication, set_state, authUvProbe]
    | some u => simp [begin_authentication, set_state, authUvProbe]
  · simp [begin_authentication, set_state, credsProbe,
      UserVerificationRequirement.code]

/-- Witness for C10 with the probe collaborators, exercising both the known
user 1 (three-record database) and the unknown-user flow. -/
theorem begin_calls_use_fixed_parameters_witness :
    begin_registration { collab0 with registerBegin := uvProbe }
        (fun i => i) db3 busySession 1
      = begin_registration { collab0 with registerBegin := uvProbe }
        (fun i => i) db3 busySession 1
    ∧ (begin_registration { collab0 with registerBegin := uvProbe }
        (fun i => i) db3 busySession 1).2.state
      = some UserVerificationRequirement.discouraged.code
    ∧ (begin_authentication { collab0 with authenticateBegin := authUvProbe }
        (fun i => i) db3 busySession (some 1)).2.state
      = some UserVerificationRequirement.preferred.code
    ∧ (begin_authentication { collab0 with authenticateBegin := credsProbe }
        (fun i => i) db3 busySession none).2.state
      = some UserVerificationRequirement.preferred.code :=
  ⟨(begin_calls_use_fixed_parameters collab0 uvProbe uvProbe authUvProbe authUvProbe
      credsProbe credsProbe (fun i => i) db3 busySession 1 (some 1)
      (fun _ _ _ => rfl) (fun _ _ => rfl) (fun _ => rfl)).1,
    (begin_calls_use_fixed_parameters collab0 uvProbe uvProbe authUvProbe authUvProbe
      credsProbe credsProbe (fun i => i) db3 busySession 1 (some 1)
      (fun _ _ _ => rfl) (fun _ _ => rfl) (fun _ => rfl)).2.2.2.1,
    (begin_calls_use_fixed_parameters collab0 uvProbe uvProbe authUvProbe authUvProbe
      credsProbe credsProbe (fun i => i) db3 busySession 1 (some 1)
      (fun _ _ _ => rfl) (fun _ _ => rfl) (fun _ => rfl)).2.2.2.2.1,
    (begin_calls_use_fixed_parameters collab0 uvProbe uvProbe authUvProbe authUvProbe
      credsProbe credsProbe (fun i => i) db3 busySession 1 (some 1)
      (fun _ _ _ => rfl) (fun _ _ => rfl) (fun _ => rfl)).2.2.2.2.2⟩
